import Mathlib

/-!
Verification of the LabSound graph-runtime core against its specification.

The definitions below are a shallow embedding of the code in
`src/Modules/webaudio/AudioNode.cpp` and `src/Modules/webaudio/PannerNode.cpp`.
Times and sample values are modelled as exact rationals; machine doubles that
can become NaN or infinite are modelled by `EDouble`, a rational together with
a non-finite marker.  Virtual methods (`process`, the per-node DSP) and the
graph-recursive `pullInputs` are parameters of the dispatch functions, as they
are in the C++ class via virtual dispatch.  Helpers that live outside the
provided sources (AudioBus, FloatPoint3D, AudioNodeInput/Output bookkeeping)
are modelled from the spec and marked as such in their doc comments.
-/

namespace LabSound

/-- Exception codes used by the topology operations (`ExceptionCode` out-params
in the source). -/
inductive ExceptionCode where
  | INDEX_SIZE_ERR
  | SYNTAX_ERR
  | NOT_SUPPORTED_ERR
deriving DecidableEq

/-- Node type tags (`AudioNode::NodeType`); only the constructors the claims
need are listed. -/
inductive NodeType where
  | NodeTypeUnknown
  | NodeTypeDestination
  | NodeTypeGain
  | NodeTypePanner
  | NodeTypeConvolver
  | NodeTypeDelay
  | NodeTypeAudioBufferSource
deriving DecidableEq

/-- Reference-count kinds (`AudioNode::RefType`). -/
inductive RefType where
  | RefTypeNormal
  | RefTypeConnection
deriving DecidableEq

/-- Modelled from the spec: an AudioBus owns a block of samples and a
silent-flag (true means the contents must be treated as all zero). -/
structure AudioBus where
  samples : List ℚ
  silentFlag : Bool
deriving DecidableEq

/-- Modelled from the spec: `AudioBus::zero` zeroes the sample buffer and sets
the silent-flag. -/
def AudioBus.zero (b : AudioBus) : AudioBus :=
  { samples := b.samples.map fun _ => 0, silentFlag := true }

/-- Modelled from the spec: `AudioBus::clearSilentFlag`. -/
def AudioBus.clearSilentFlag (b : AudioBus) : AudioBus :=
  { b with silentFlag := false }

/-- Modelled from the spec: `AudioBus::isSilent` reads the silent-flag. -/
def AudioBus.isSilent (b : AudioBus) : Bool :=
  b.silentFlag

/-- One input port of a node; the claims only use its internal summing bus. -/
structure AudioNodeInput where
  bus : AudioBus
deriving DecidableEq

/-- One output port of a node: its bus, its enabled flag, and the number of
inputs it is currently connected to (spec section 4.3). -/
structure AudioNodeOutput where
  bus : AudioBus
  enabled : Bool
  connectedInputCount : ℕ
deriving DecidableEq

/-- Modelled from the spec: `AudioNodeOutput::disable` severs the output from
its downstream inputs (the enabled flag goes false). -/
def AudioNodeOutput.disable (o : AudioNodeOutput) : AudioNodeOutput :=
  { o with enabled := false }

/-- Modelled from the spec: `AudioNodeOutput::enable` re-wires the output into
its downstream inputs. -/
def AudioNodeOutput.enable (o : AudioNodeOutput) : AudioNodeOutput :=
  { o with enabled := true }

/-- Modelled from the spec: `AudioNodeOutput::disconnectAll` removes every
connection from this output. -/
def AudioNodeOutput.disconnectAll (o : AudioNodeOutput) : AudioNodeOutput :=
  { o with connectedInputCount := 0 }

/-- State of one `AudioNode` (fields of the class in `AudioNode.cpp`, plus the
node and context identities the topology operations compare, plus the
per-subclass constants `latencyTime`/`tailTime` which are virtual methods in
the source). -/
structure AudioNodeState where
  nodeId : ℕ
  contextId : ℕ
  isInitialized : Bool
  nodeType : NodeType
  sampleRate : ℚ
  lastProcessingTime : ℚ
  lastNonSilentTime : ℚ
  normalRefCount : ℤ
  connectionRefCount : ℤ
  isMarkedForDeletion : Bool
  isDisabled : Bool
  latencyTimeVal : ℚ
  tailTimeVal : ℚ
  inputs : List AudioNodeInput
  outputs : List AudioNodeOutput
deriving DecidableEq

/-- The `AudioNode` constructor's initial field values
(`AudioNode::AudioNode`). -/
def AudioNodeState.new (nodeId contextId : ℕ) (sampleRate : ℚ) : AudioNodeState :=
  { nodeId := nodeId
    contextId := contextId
    isInitialized := false
    nodeType := NodeType.NodeTypeUnknown
    sampleRate := sampleRate
    lastProcessingTime := -1
    lastNonSilentTime := -1
    normalRefCount := 1
    connectionRefCount := 0
    isMarkedForDeletion := false
    isDisabled := false
    latencyTimeVal := 0
    tailTimeVal := 0
    inputs := []
    outputs := [] }

/-- `AudioNode::numberOfInputs`. -/
def AudioNodeState.numberOfInputs (s : AudioNodeState) : ℕ :=
  s.inputs.length

/-- `AudioNode::numberOfOutputs`. -/
def AudioNodeState.numberOfOutputs (s : AudioNodeState) : ℕ :=
  s.outputs.length

/-- `AudioNode::input(i)`: the i-th input when in range, else the null
pointer (modelled as `none`). -/
def AudioNodeState.input (s : AudioNodeState) (i : ℕ) : Option AudioNodeInput :=
  if h : i < s.inputs.length then some (s.inputs.get ⟨i, h⟩) else none

/-- `AudioNode::output(i)`: the i-th output when in range, else the null
pointer (modelled as `none`). -/
def AudioNodeState.output (s : AudioNodeState) (i : ℕ) : Option AudioNodeOutput :=
  if h : i < s.outputs.length then some (s.outputs.get ⟨i, h⟩) else none

/-- The observable view of the rendering context a node reads during a tick
(`AudioContext` accessors used by `AudioNode::processIfNecessary`). -/
structure ContextView where
  expired : Bool
  currentTime : ℚ
  currentSampleFrame : ℕ
deriving DecidableEq

/-- `AudioNode::inputsAreSilent`. -/
def AudioNodeState.inputsAreSilent (s : AudioNodeState) : Bool :=
  s.inputs.all fun i => i.bus.isSilent

/-- `AudioNode::silenceOutputs`: zero every output's bus. -/
def AudioNodeState.silenceOutputs (s : AudioNodeState) : AudioNodeState :=
  { s with outputs := s.outputs.map fun o => { o with bus := o.bus.zero } }

/-- `AudioNode::unsilenceOutputs`: clear every output bus's silent-flag. -/
def AudioNodeState.unsilenceOutputs (s : AudioNodeState) : AudioNodeState :=
  { s with outputs := s.outputs.map fun o => { o with bus := o.bus.clearSilentFlag } }

/-- `AudioNode::propagatesSilence`. -/
def AudioNodeState.propagatesSilence (s : AudioNodeState) (ctx : ContextView) : Bool :=
  s.lastNonSilentTime + s.latencyTimeVal + s.tailTimeVal < ctx.currentTime

/-- Result of one `processIfNecessary` call: the node state afterwards, and
whether `pullInputs` respectively `process` were invoked during the call. -/
structure ProcResult where
  state : AudioNodeState
  pulledInputs : Bool
  invokedProcess : Bool
deriving DecidableEq

/-- Body of the render quantum in `AudioNode::processIfNecessary` (the block
guarded by `m_lastProcessingTime != currentTime`, after that time has been
updated): pull the inputs, record the last non-silent time, and either silence
the outputs or run `process` and clear their silent-flags.  `pull` stands for
`pullInputs` (graph recursion into upstream nodes, which updates this node's
input buses) and `process` for the virtual per-node DSP (which updates the
output buses); both are parameters exactly because they are virtual calls in
the source. -/
def processTick (pull process : AudioNodeState → AudioNodeState)
    (ctx : ContextView) (framesToProcess : ℕ) (s1 : AudioNodeState) : ProcResult :=
  let s2 := pull s1
  let silentInputs := s2.inputsAreSilent
  let s3 := if silentInputs then s2
    else { s2 with
      lastNonSilentTime := ((ctx.currentSampleFrame : ℚ) + framesToProcess) / s2.sampleRate }
  if silentInputs && s3.propagatesSilence ctx then ⟨s3.silenceOutputs, true, false⟩
  else ⟨(process s3).unsilenceOutputs, true, true⟩

/-- `AudioNode::processIfNecessary`: return immediately when the context has
expired, the node is uninitialized, or this quantum has already been processed
(`m_lastProcessingTime == currentTime`); otherwise update the last processing
time first and run the quantum body `processTick`. -/
def processIfNecessary (pull process : AudioNodeState → AudioNodeState)
    (ctx : ContextView) (framesToProcess : ℕ) (s : AudioNodeState) : ProcResult :=
  if ctx.expired then ⟨s, false, false⟩
  else if !s.isInitialized then ⟨s, false, false⟩
  else if s.lastProcessingTime ≠ ctx.currentTime then
    processTick pull process ctx framesToProcess { s with lastProcessingTime := ctx.currentTime }
  else ⟨s, false, false⟩

/-- `AudioNode::disableOutputsIfNecessary`: disable the outputs when at most
one connection is left, the node is not already disabled, and the node type is
not one of the tail-sensitive types (convolver, delay). -/
def AudioNodeState.disableOutputsIfNecessary (s : AudioNodeState) : AudioNodeState :=
  if s.connectionRefCount ≤ 1 && !s.isDisabled then
    if s.nodeType ≠ NodeType.NodeTypeConvolver && s.nodeType ≠ NodeType.NodeTypeDelay then
      { s with isDisabled := true, outputs := s.outputs.map AudioNodeOutput.disable }
    else s
  else s

/-- `AudioNode::enableOutputsIfNecessary`. -/
def AudioNodeState.enableOutputsIfNecessary (s : AudioNodeState) : AudioNodeState :=
  if s.isDisabled && s.connectionRefCount > 0 then
    { s with isDisabled := false, outputs := s.outputs.map AudioNodeOutput.enable }
  else s

/-- Result of one `finishDeref` call: the node state afterwards, whether
`disconnectAll` was invoked on every output, and whether the node was placed
on the context's deletion list (`AudioContext::markForDeletion`) during this
call. -/
structure DerefResult where
  state : AudioNodeState
  disconnectedAllOutputs : Bool
  addedToDeletionList : Bool
deriving DecidableEq

/-- `AudioNode::finishDeref`: decrement the selected reference count, then,
when the connection count has reached zero, either mark the node for deletion
(when the normal count is also zero and the node is not yet marked) or, for a
connection deref with normal refs remaining, run `disableOutputsIfNecessary`.
`shuttingDown` is `context().expired()` in the source. -/
def finishDeref (shuttingDown : Bool) (refType : RefType) (s : AudioNodeState) : DerefResult :=
  let s :=
    match refType with
    | RefType.RefTypeNormal => { s with normalRefCount := s.normalRefCount - 1 }
    | RefType.RefTypeConnection => { s with connectionRefCount := s.connectionRefCount - 1 }
  if s.connectionRefCount = 0 then
    if s.normalRefCount = 0 then
      if !s.isMarkedForDeletion then
        ⟨{ s with
            outputs := s.outputs.map AudioNodeOutput.disconnectAll
            isMarkedForDeletion := true },
          true, !shuttingDown⟩
      else ⟨s, false, false⟩
    else if refType = RefType.RefTypeConnection then
      ⟨s.disableOutputsIfNecessary, false, false⟩
    else ⟨s, false, false⟩
  else ⟨s, false, false⟩

/-- One registered node-to-node connection (the cross-reference created by
`AudioNodeInput::connect`). -/
structure GraphConnection where
  srcNode : ℕ
  outputIndex : ℕ
  dstNode : ℕ
  inputIndex : ℕ
deriving DecidableEq

/-- One registered node-to-param connection (created by
`AudioParam::connect`). -/
structure ParamConnection where
  srcNode : ℕ
  outputIndex : ℕ
  paramId : ℕ
deriving DecidableEq

/-- The context-owned topology state the connect operations read and write:
the registered connections and `AudioContext`'s connection counter. -/
structure GraphState where
  connections : List GraphConnection
  paramConnections : List ParamConnection
  connectionCount : ℕ
deriving DecidableEq

/-- An `AudioParam` as seen by `AudioNode::connect(AudioParam*, ...)`: its
identity and the context it belongs to. -/
structure AudioParamRef where
  paramId : ℕ
  contextId : ℕ
deriving DecidableEq

/-- `AudioNode::connect(AudioNode* destination, outputIndex, inputIndex, ec)`.
Returns the exception code set (or `none` on success) and the updated
topology.  The registration itself (`input->connect(output)`) and
`AudioContext::incrementConnectionCount` are modelled from the spec: the
cross-reference is recorded and the context's connection counter is bumped. -/
def connect (this : AudioNodeState) (destination : Option AudioNodeState)
    (outputIndex inputIndex : ℕ) (g : GraphState) : Option ExceptionCode × GraphState :=
  match destination with
  | none => (some ExceptionCode.SYNTAX_ERR, g)
  | some dst =>
    if outputIndex ≥ this.numberOfOutputs then (some ExceptionCode.INDEX_SIZE_ERR, g)
    else if inputIndex ≥ dst.numberOfInputs then (some ExceptionCode.INDEX_SIZE_ERR, g)
    else if this.contextId ≠ dst.contextId then (some ExceptionCode.SYNTAX_ERR, g)
    else
      (none,
        { g with
            connections := ⟨this.nodeId, outputIndex, dst.nodeId, inputIndex⟩ :: g.connections
            connectionCount := g.connectionCount + 1 })

/-- `AudioNode::connect(AudioParam* param, outputIndex, ec)`.  The
registration (`param->connect(output)`) is modelled from the spec as recording
the cross-reference; note that the source does not call
`incrementConnectionCount` in this overload. -/
def connectParam (this : AudioNodeState) (param : Option AudioParamRef)
    (outputIndex : ℕ) (g : GraphState) : Option ExceptionCode × GraphState :=
  match param with
  | none => (some ExceptionCode.SYNTAX_ERR, g)
  | some p =>
    if outputIndex ≥ this.numberOfOutputs then (some ExceptionCode.INDEX_SIZE_ERR, g)
    else if this.contextId ≠ p.contextId then (some ExceptionCode.SYNTAX_ERR, g)
    else
      (none,
        { g with paramConnections := ⟨this.nodeId, outputIndex, p.paramId⟩ :: g.paramConnections })

/-- Modelled from the spec: a 3-vector of machine floats (`FloatPoint3D`),
with exact rational components. -/
structure FloatPoint3D where
  x : ℚ
  y : ℚ
  z : ℚ
deriving DecidableEq

/-- Modelled from the spec: `FloatPoint3D::isZero` (all components zero). -/
def FloatPoint3D.isZero (p : FloatPoint3D) : Bool :=
  p.x = 0 && p.y = 0 && p.z = 0

/-- Componentwise vector difference (`operator-` on `FloatPoint3D`). -/
def FloatPoint3D.sub (p q : FloatPoint3D) : FloatPoint3D :=
  ⟨p.x - q.x, p.y - q.y, p.z - q.z⟩

/-- Modelled from the spec: `FloatPoint3D::dot`. -/
def FloatPoint3D.dot (p q : FloatPoint3D) : ℚ :=
  p.x * q.x + p.y * q.y + p.z * q.z

/-- Modelled from the spec: `FloatPoint3D::cross`. -/
def FloatPoint3D.cross (p q : FloatPoint3D) : FloatPoint3D :=
  ⟨p.y * q.z - p.z * q.y, p.z * q.x - p.x * q.z, p.x * q.y - p.y * q.x⟩

/-- Squared Euclidean length; `FloatPoint3D::length` is `sqrtQ` of this. -/
def FloatPoint3D.lengthSquared (p : FloatPoint3D) : ℚ :=
  p.dot p

/-- Scalar multiple (`operator*` of a scalar and a `FloatPoint3D`). -/
def FloatPoint3D.smul (c : ℚ) (p : FloatPoint3D) : FloatPoint3D :=
  ⟨c * p.x, c * p.y, c * p.z⟩

/-- Modelled from the spec: `FloatPoint3D::normalize` divides the components
by the length when the length is nonzero.  The square root is a parameter
because it is not rational-valued; any model of `sqrt` may be passed. -/
def FloatPoint3D.normalize (sqrtQ : ℚ → ℚ) (p : FloatPoint3D) : FloatPoint3D :=
  let len := sqrtQ p.lengthSquared
  if len ≠ 0 then ⟨p.x / len, p.y / len, p.z / len⟩ else p

/-- A machine double in the doppler computation: either an exact finite value
or `nonFin`, standing for NaN or an infinity (everything `isnan || isinf`
matches). -/
inductive EDouble where
  | fin (val : ℚ)
  | nonFin
deriving DecidableEq

/-- Negation of a double; NaN/Inf stays non-finite. -/
def EDouble.neg : EDouble → EDouble
  | .fin v => .fin (-v)
  | .nonFin => .nonFin

/-- Subtraction of doubles; any non-finite operand keeps the result in the
non-finite class (a NaN propagates; an infinity minus a finite value is again
infinite). -/
def EDouble.sub : EDouble → EDouble → EDouble
  | .fin a, .fin b => .fin (a - b)
  | _, _ => .nonFin

/-- Product of doubles; as for subtraction. -/
def EDouble.mul : EDouble → EDouble → EDouble
  | .fin a, .fin b => .fin (a * b)
  | _, _ => .nonFin

/-- Quotient of doubles.  Division of a finite value by zero yields an
infinity or NaN, hence `nonFin`; a non-finite operand yields NaN, an infinity,
or zero (finite over infinite) — in every one of those cases the value of the
doppler computation downstream of `fixNANs` is the same as for `nonFin`, see
the clamping in `dopplerRate`. -/
def EDouble.div : EDouble → EDouble → EDouble
  | .fin a, .fin b => if b = 0 then .nonFin else .fin (a / b)
  | _, _ => .nonFin

/-- `std::min(a, b)` on doubles, i.e. `(b < a) ? b : a`: every comparison with
a NaN is false, so a non-finite first argument is returned unchanged. -/
def EDouble.cppMin : EDouble → EDouble → EDouble
  | .fin a, .fin b => .fin (min a b)
  | .nonFin, _ => .nonFin
  | .fin a, .nonFin => .fin a

/-- `fixNANs` from `PannerNode.cpp`: replace a NaN or infinite value by 0.0.
The result is always finite, so it is returned as a rational. -/
def fixNANs : EDouble → ℚ
  | .fin v => v
  | .nonFin => 0

/-- The listener record read by the panner (`AudioListener` accessors used in
`PannerNode.cpp`). -/
structure AudioListenerState where
  position : FloatPoint3D
  orientation : FloatPoint3D
  upVector : FloatPoint3D
  velocity : FloatPoint3D
  dopplerFactor : ℚ
  speedOfSound : ℚ
deriving DecidableEq

/-- Modelled from the spec: the panning-model enum values
(`PannerNode::EQUALPOWER = 0`, `HRTF = 1`, `SOUNDFIELD = 2`; the enum lives in
the header, which is not among the provided sources). -/
def EQUALPOWER : ℕ := 0

/-- Modelled from the spec: see `EQUALPOWER`. -/
def HRTF : ℕ := 1

/-- Modelled from the spec: see `EQUALPOWER`. -/
def SOUNDFIELD : ℕ := 2

/-- State of a `PannerNode` relevant to the claims: spatial state, the stored
panning model, and the allocated panner strategy.  `panner` is `none` when no
strategy object exists (`m_panner.get()` null) and otherwise records the model
the strategy was created for; `pannerAllocCount` counts every call of
`Panner::create`, so that reallocation is observable. -/
structure PannerState where
  position : FloatPoint3D
  orientation : FloatPoint3D
  velocity : FloatPoint3D
  panningModel : ℕ
  panner : Option ℕ
  pannerAllocCount : ℕ
deriving DecidableEq

/-- `PannerNode::setPanningModel`: EQUALPOWER and HRTF are accepted (with a
strategy reallocation only when there is no strategy yet or the model
changed); SOUNDFIELD falls through to the default case, which sets
NOT_SUPPORTED_ERR.  Returns the exception code set (or `none`) and the new
state. -/
def setPanningModel (model : ℕ) (s : PannerState) : Option ExceptionCode × PannerState :=
  if model = EQUALPOWER || model = HRTF then
    if s.panner = none || model ≠ s.panningModel then
      (none,
        { s with
            panner := some model
            panningModel := model
            pannerAllocCount := s.pannerAllocCount + 1 })
    else (none, s)
  else (some ExceptionCode.NOT_SUPPORTED_ERR, s)

/-- `fixNANs` as applied to the azimuth and elevation values: in the exact
rational model those expressions are always finite (the transcendental
functions are parameters returning rationals), so the fix is the identity. -/
def fixNANsRat (x : ℚ) : ℚ := x

/-- `PannerNode::getAzimuthElevation`.  `sqrtQ` models `sqrt`, `acosQ` models
`acos`, and `piQ` models `piDouble`; they are parameters because they are not
rational-valued.  Returns `(azimuth, elevation)`. -/
def getAzimuthElevation (sqrtQ acosQ : ℚ → ℚ) (piQ : ℚ)
    (s : PannerState) (listener : AudioListenerState) : ℚ × ℚ :=
  let listenerPosition := listener.position
  let sourceListener := s.position.sub listenerPosition
  if sourceListener.isZero then (0, 0)
  else
    let sourceListener := sourceListener.normalize sqrtQ
    let listenerFront := listener.orientation
    let listenerUp := listener.upVector
    let listenerRight := (listenerFront.cross listenerUp).normalize sqrtQ
    let listenerFrontNorm := listenerFront.normalize sqrtQ
    let up := listenerRight.cross listenerFrontNorm
    let upProjection := sourceListener.dot up
    let projectedSource := (sourceListener.sub (FloatPoint3D.smul upProjection up)).normalize sqrtQ
    let azimuth := 180 * acosQ (projectedSource.dot listenerRight) / piQ
    let azimuth := fixNANsRat azimuth
    let frontBack := projectedSource.dot listenerFrontNorm
    let azimuth := if frontBack < 0 then 360 - azimuth else azimuth
    let azimuth := if 0 ≤ azimuth ∧ azimuth ≤ 270 then 90 - azimuth else 450 - azimuth
    let elevation := 90 - 180 * acosQ (sourceListener.dot up) / piQ
    let elevation := fixNANsRat elevation
    let elevation :=
      if elevation > 90 then 180 - elevation
      else if elevation < -90 then -180 - elevation
      else elevation
    (azimuth, elevation)

/-- `PannerNode::dopplerRate`.  `sqrtQ` models `sqrt` (used for the
source-listener distance).  Intermediate doubles are `EDouble` because the
projections divide by the distance without a zero check in the source. -/
def dopplerRate (sqrtQ : ℚ → ℚ) (s : PannerState) (listener : AudioListenerState) : ℚ :=
  let dopplerShift : ℚ := 1
  let dopplerFactor := listener.dopplerFactor
  if dopplerFactor > 0 then
    let speedOfSound := listener.speedOfSound
    let sourceVelocity := s.velocity
    let listenerVelocity := listener.velocity
    let sourceHasVelocity := !sourceVelocity.isZero
    let listenerHasVelocity := !listenerVelocity.isZero
    if sourceHasVelocity || listenerHasVelocity then
      let listenerPosition := listener.position
      let sourceToListener := s.position.sub listenerPosition
      let sourceListenerMagnitude := sqrtQ sourceToListener.lengthSquared
      let listenerProjection :=
        EDouble.div (.fin (sourceToListener.dot listenerVelocity)) (.fin sourceListenerMagnitude)
      let sourceProjection :=
        EDouble.div (.fin (sourceToListener.dot sourceVelocity)) (.fin sourceListenerMagnitude)
      let listenerProjection := listenerProjection.neg
      let sourceProjection := sourceProjection.neg
      let scaledSpeedOfSound := speedOfSound / dopplerFactor
      let listenerProjection := listenerProjection.cppMin (.fin scaledSpeedOfSound)
      let sourceProjection := sourceProjection.cppMin (.fin scaledSpeedOfSound)
      let shift :=
        ((EDouble.fin speedOfSound).sub ((EDouble.fin dopplerFactor).mul listenerProjection)).div
          ((EDouble.fin speedOfSound).sub ((EDouble.fin dopplerFactor).mul sourceProjection))
      let shift := fixNANs shift
      if shift > 16 then 16
      else if shift < 1/8 then 1/8
      else shift
    else dopplerShift
  else dopplerShift

/-! ## Concrete fixtures used by witnesses and counterexamples -/

/-- A live rendering context at time 0. -/
def wCtx : ContextView := ⟨false, 0, 0⟩

/-- An expired rendering context. -/
def wCtxExpired : ContextView := ⟨true, 0, 0⟩

/-- An initialized one-input one-output node whose quantum at time 0 has
already run (`lastProcessingTime = currentTime`). -/
def wNode : AudioNodeState :=
  { AudioNodeState.new 0 0 4 with
      isInitialized := true
      lastProcessingTime := 0
      inputs := [⟨⟨[0, 0], true⟩⟩]
      outputs := [⟨⟨[1, 2], false⟩, true, 1⟩] }

/-- An initialized node with a silent input bus that has not yet been
processed at time 0. -/
def wSilentNode : AudioNodeState :=
  { AudioNodeState.new 1 0 4 with
      isInitialized := true
      inputs := [⟨⟨[0, 0], true⟩⟩]
      outputs := [⟨⟨[1, 2], false⟩, true, 1⟩] }

/-- A source node with one output, living in context 0. -/
def wSrc : AudioNodeState :=
  { AudioNodeState.new 0 0 44100 with outputs := [⟨⟨[], true⟩, true, 0⟩] }

/-- A destination node with one input, living in context 1. -/
def wDstOther : AudioNodeState :=
  { AudioNodeState.new 1 1 44100 with inputs := [⟨⟨[], true⟩⟩] }

/-- A destination node with one input, living in context 0 like `wSrc`. -/
def wDstSame : AudioNodeState :=
  { AudioNodeState.new 2 0 44100 with inputs := [⟨⟨[], true⟩⟩] }

/-- The empty topology. -/
def wGraph : GraphState := ⟨[], [], 0⟩

/-- An `AudioParam` belonging to context 0. -/
def wParam : AudioParamRef := ⟨7, 0⟩

/-- A gain node holding two connection refs and one normal ref. -/
def wGainTwoConn : AudioNodeState :=
  { AudioNodeState.new 3 0 44100 with
      connectionRefCount := 2
      normalRefCount := 1
      nodeType := NodeType.NodeTypeGain
      outputs := [⟨⟨[], true⟩, true, 2⟩] }

/-- A gain node holding one connection ref and one normal ref. -/
def wGainOneConn : AudioNodeState :=
  { AudioNodeState.new 4 0 44100 with
      connectionRefCount := 1
      normalRefCount := 1
      nodeType := NodeType.NodeTypeGain
      outputs := [⟨⟨[], true⟩, true, 1⟩] }

/-- The default listener: at the origin, facing +x, up +y, at rest,
doppler factor 1, speed of sound 340 (the `AudioListener` defaults). -/
def wListener : AudioListenerState :=
  { position := ⟨0, 0, 0⟩
    orientation := ⟨1, 0, 0⟩
    upVector := ⟨0, 1, 0⟩
    velocity := ⟨0, 0, 0⟩
    dopplerFactor := 1
    speedOfSound := 340 }

/-- A panner at the listener's position moving along +x, with an HRTF
strategy allocated. -/
def wPannerMoving : PannerState :=
  { position := ⟨0, 0, 0⟩
    orientation := ⟨1, 0, 0⟩
    velocity := ⟨1, 0, 0⟩
    panningModel := 1
    panner := some 1
    pannerAllocCount := 1 }

/-- A panner at rest at the listener's position. -/
def wPannerStill : PannerState :=
  { wPannerMoving with velocity := ⟨0, 0, 0⟩ }

/-! ## Helper lemmas -/

/-- When the quantum has already been processed (or would otherwise still be
current), `processIfNecessary` is the identity with no effects. -/
lemma processIfNecessary_already (pull process : AudioNodeState → AudioNodeState)
    (ctx : ContextView) (frames : ℕ) (s : AudioNodeState)
    (h : s.lastProcessingTime = ctx.currentTime) :
    processIfNecessary pull process ctx frames s = ⟨s, false, false⟩ := by
  cases hE : ctx.expired <;> cases hI : s.isInitialized <;>
    simp [processIfNecessary, hE, hI, h]

/-- In a live context, on an initialized node not yet processed this quantum,
`processIfNecessary` runs the quantum body on the time-stamped state. -/
lemma processIfNecessary_main (pull process : AudioNodeState → AudioNodeState)
    (ctx : ContextView) (frames : ℕ) (s : AudioNodeState)
    (hE : ctx.expired = false) (hI : s.isInitialized = true)
    (hT : s.lastProcessingTime ≠ ctx.currentTime) :
    processIfNecessary pull process ctx frames s
      = processTick pull process ctx frames { s with lastProcessingTime := ctx.currentTime } := by
  simp [processIfNecessary, hE, hI, hT]

/-- The quantum body never touches `lastProcessingTime` as long as the node's
own `pull` and `process` callbacks do not. -/
lemma processTick_lastProcessingTime (pull process : AudioNodeState → AudioNodeState)
    (ctx : ContextView) (frames : ℕ) (s1 : AudioNodeState)
    (hpull : ∀ t, (pull t).lastProcessingTime = t.lastProcessingTime)
    (hproc : ∀ t, (process t).lastProcessingTime = t.lastProcessingTime) :
    (processTick pull process ctx frames s1).state.lastProcessingTime
      = s1.lastProcessingTime := by
  unfold processTick
  by_cases hS : (pull s1).inputsAreSilent = true
  · by_cases hP : (pull s1).propagatesSilence ctx = true
    · simp [hS, hP, AudioNodeState.silenceOutputs, hpull]
    · simp [hS, hP, AudioNodeState.unsilenceOutputs, hproc, hpull]
  · simp only [Bool.not_eq_true] at hS
    simp [hS, AudioNodeState.unsilenceOutputs, hproc, hpull]

/-- C1: within one render quantum a node is processed at most once: a call
made while `lastProcessingTime` already equals the context's current time
returns immediately with the state untouched, no inputs pulled and no output
bus modified; and a repeated call right after any call is such a no-op, so
`process` runs at most once per quantum. -/
theorem processIfNecessary_fanout_memoization
    (pull process : AudioNodeState → AudioNodeState)
    (ctx : ContextView) (frames : ℕ) (s : AudioNodeState)
    (hpull : ∀ t, (pull t).lastProcessingTime = t.lastProcessingTime)
    (hproc : ∀ t, (process t).lastProcessingTime = t.lastProcessingTime) :
    (s.lastProcessingTime = ctx.currentTime →
      processIfNecessary pull process ctx frames s = ⟨s, false, false⟩)
    ∧ processIfNecessary pull process ctx frames
        (processIfNecessary pull process ctx frames s).state
      = ⟨(processIfNecessary pull process ctx frames s).state, false, false⟩ := by
  constructor
  · exact processIfNecessary_already pull process ctx frames s
  · cases hE : ctx.expired
    · cases hI : s.isInitialized
      · simp [processIfNecessary, hE, hI]
      · by_cases hT : s.lastProcessingTime = ctx.currentTime
        · rw [processIfNecessary_already pull process ctx frames s hT]
          exact processIfNecessary_already pull process ctx frames s hT
        · rw [processIfNecessary_main pull process ctx frames s hE hI hT]
          apply processIfNecessary_already
          rw [processTick_lastProcessingTime pull process ctx frames _ hpull hproc]
    · simp [processIfNecessary, hE]

/-- C1 witness: the memoization theorem applied at a concrete node whose
quantum at time 0 has already run. -/
theorem processIfNecessary_fanout_memoization_witness :
    processIfNecessary id id wCtx 2 wNode = ⟨wNode, false, false⟩ :=
  (processIfNecessary_fanout_memoization id id wCtx 2 wNode
    (fun _ => rfl) (fun _ => rfl)).1 rfl

/-- C10: with an expired context or an uninitialized node,
`processIfNecessary` returns immediately: the state (including
`lastProcessingTime`, `lastNonSilentTime` and all buses) is unchanged and
neither `pullInputs` nor `process` is invoked. -/
theorem processIfNecessary_noop_uninitialized_or_expired
    (pull process : AudioNodeState → AudioNodeState)
    (ctx : ContextView) (frames : ℕ) (s : AudioNodeState)
    (h : ctx.expired = true ∨ s.isInitialized = false) :
    processIfNecessary pull process ctx frames s = ⟨s, false, false⟩ := by
  rcases h with h | h
  · simp [processIfNecessary, h]
  · cases hE : ctx.expired <;> simp [processIfNecessary, hE, h]

/-- C10 witness: the no-op theorem applied to an expired context and to an
uninitialized node. -/
theorem processIfNecessary_noop_uninitialized_or_expired_witness :
    processIfNecessary id id wCtxExpired 2 wNode = ⟨wNode, false, false⟩
    ∧ processIfNecessary id id wCtx 2 wSrc = ⟨wSrc, false, false⟩ :=
  ⟨processIfNecessary_noop_uninitialized_or_expired id id wCtxExpired 2 wNode (Or.inl rfl),
   processIfNecessary_noop_uninitialized_or_expired id id wCtx 2 wSrc (Or.inr rfl)⟩

/-- C9: the port accessors are total: `input i` is the i-th input for i in
range and the null pointer (`none`) otherwise, and likewise `output i`;
out-of-range access never faults. -/
theorem port_accessors_total (s : AudioNodeState) (i : ℕ) :
    (∀ h : i < s.inputs.length, s.input i = some (s.inputs.get ⟨i, h⟩))
    ∧ (s.inputs.length ≤ i → s.input i = none)
    ∧ (∀ h : i < s.outputs.length, s.output i = some (s.outputs.get ⟨i, h⟩))
    ∧ (s.outputs.length ≤ i → s.output i = none) := by
  refine ⟨fun h => ?_, fun h => ?_, fun h => ?_, fun h => ?_⟩
  · rw [AudioNodeState.input, dif_pos h]
  · rw [AudioNodeState.input, dif_neg (by omega)]
  · rw [AudioNodeState.output, dif_pos h]
  · rw [AudioNodeState.output, dif_neg (by omega)]

/-- C9 witness: the accessor theorem applied at concrete in-range and
out-of-range indices. -/
theorem port_accessors_total_witness :
    wNode.input 0 = some ⟨⟨[0, 0], true⟩⟩
    ∧ wNode.input 1 = none ∧ wNode.output 5 = none := by
  refine ⟨?_, ?_, ?_⟩
  · exact ((port_accessors_total wNode 0).1 (by decide)).trans (by decide)
  · exact (port_accessors_total wNode 1).2.1 (by decide)
  · exact (port_accessors_total wNode 5).2.2.2 (by decide)

/-- C5: `propagatesSilence` holds iff `lastNonSilentTime + latencyTime +
tailTime < currentTime`; and in a tick where the node has not yet been
processed, if all input buses (after the pull) are silent and the node
propagates silence then every output bus is zeroed and marked silent without
invoking `process`, otherwise `process` is invoked and every output bus's
silent-flag is cleared. -/
theorem processIfNecessary_silence_propagation
    (pull process : AudioNodeState → AudioNodeState)
    (ctx : ContextView) (frames : ℕ) (s : AudioNodeState)
    (hE : ctx.expired = false) (hI : s.isInitialized = true)
    (hT : s.lastProcessingTime ≠ ctx.currentTime) :
    (∀ t : AudioNodeState, t.propagatesSilence ctx = true ↔
        t.lastNonSilentTime + t.latencyTimeVal + t.tailTimeVal < ctx.currentTime)
    ∧ ∀ s2 s3 : AudioNodeState,
        s2 = pull { s with lastProcessingTime := ctx.currentTime } →
        s3 = (if s2.inputsAreSilent then s2
          else { s2 with
            lastNonSilentTime := ((ctx.currentSampleFrame : ℚ) + frames) / s2.sampleRate }) →
        (s2.inputsAreSilent = true → s3.propagatesSilence ctx = true →
          processIfNecessary pull process ctx frames s = ⟨s3.silenceOutputs, true, false⟩
          ∧ ∀ o ∈ (processIfNecessary pull process ctx frames s).state.outputs,
              (∀ x ∈ o.bus.samples, x = 0) ∧ o.bus.silentFlag = true)
        ∧ ((s2.inputsAreSilent && s3.propagatesSilence ctx) = false →
          (processIfNecessary pull process ctx frames s).invokedProcess = true
          ∧ ∀ o ∈ (processIfNecessary pull process ctx frames s).state.outputs,
              o.bus.silentFlag = false) := by
  constructor
  · intro t
    unfold AudioNodeState.propagatesSilence
    exact decide_eq_true_iff
  · intro s2 s3 hs2 hs3
    subst hs2
    subst hs3
    rw [processIfNecessary_main pull process ctx frames s hE hI hT]
    constructor
    · intro hSil hPS
      rw [if_pos hSil] at hPS ⊢
      constructor
      · unfold processTick
        simp [hSil, hPS]
      · unfold processTick
        simp [hSil, hPS, AudioNodeState.silenceOutputs, AudioBus.zero]
    · intro hcond
      unfold processTick
      simp only [Bool.and_eq_false_iff] at hcond
      rcases hcond with hS | hP
      · simp [hS, AudioNodeState.unsilenceOutputs, AudioBus.clearSilentFlag]
      · by_cases hS : (pull { s with lastProcessingTime := ctx.currentTime }).inputsAreSilent = true
        · rw [if_pos hS] at hP
          simp [hS, hP, AudioNodeState.unsilenceOutputs, AudioBus.clearSilentFlag]
        · simp only [Bool.not_eq_true] at hS
          simp [hS, AudioNodeState.unsilenceOutputs, AudioBus.clearSilentFlag]

/-- C5 witness: the silence theorem applied at a concrete node with a silent
input bus and an expired tail, checking that the output bus is zeroed and no
processing happens. -/
theorem processIfNecessary_silence_propagation_witness :
    processIfNecessary id id wCtx 2 wSilentNode
      = ⟨{ wSilentNode with lastProcessingTime := 0 }.silenceOutputs, true, false⟩
    ∧ ∀ o ∈ (processIfNecessary id id wCtx 2 wSilentNode).state.outputs,
        (∀ x ∈ o.bus.samples, x = 0) ∧ o.bus.silentFlag = true := by
  have h := ((processIfNecessary_silence_propagation id id wCtx 2 wSilentNode
      rfl rfl (by decide)).2
      (id { wSilentNode with lastProcessingTime := 0 })
      (id { wSilentNode with lastProcessingTime := 0 }) rfl (by decide)).1
      (by decide)
      (by norm_num [AudioNodeState.propagatesSilence, wSilentNode, AudioNodeState.new, wCtx])
  exact ⟨h.1.trans (by decide), h.2⟩

/-- C2 counterexample: for a destination that belongs to a different context
combined with an out-of-range output index, `connect` sets INDEX_SIZE_ERR, not
the SYNTAX_ERR the claim requires for every different-context destination (the
source checks the indices before the contexts). -/
theorem connect_cross_context_bad_index_cex :
    wSrc.contextId ≠ wDstOther.contextId
    ∧ wSrc.numberOfOutputs ≤ 5
    ∧ (connect wSrc (some wDstOther) 5 0 wGraph).1 = some ExceptionCode.INDEX_SIZE_ERR
    ∧ (connect wSrc (some wDstOther) 5 0 wGraph).1 ≠ some ExceptionCode.SYNTAX_ERR := by
  refine ⟨by decide, by decide, rfl, by decide⟩

/-- C2 (amended): `connect` sets SYNTAX_ERR for a null destination; otherwise
it checks the indices first, setting INDEX_SIZE_ERR when either is out of
range, and only then sets SYNTAX_ERR for a different-context destination; in
every error case the graph is unmodified; on success the connection is
registered and `connectionCount` is bumped by exactly 1. -/
theorem connect_contract (src : AudioNodeState) (dst : Option AudioNodeState)
    (oi ii : ℕ) (g : GraphState) :
    (dst = none → connect src dst oi ii g = (some ExceptionCode.SYNTAX_ERR, g))
    ∧ ∀ d, dst = some d →
        (src.numberOfOutputs ≤ oi →
          connect src dst oi ii g = (some ExceptionCode.INDEX_SIZE_ERR, g))
        ∧ (oi < src.numberOfOutputs → d.numberOfInputs ≤ ii →
          connect src dst oi ii g = (some ExceptionCode.INDEX_SIZE_ERR, g))
        ∧ (oi < src.numberOfOutputs → ii < d.numberOfInputs → src.contextId ≠ d.contextId →
          connect src dst oi ii g = (some ExceptionCode.SYNTAX_ERR, g))
        ∧ (oi < src.numberOfOutputs → ii < d.numberOfInputs → src.contextId = d.contextId →
          (connect src dst oi ii g).1 = none
          ∧ (connect src dst oi ii g).2.connections
              = ⟨src.nodeId, oi, d.nodeId, ii⟩ :: g.connections
          ∧ (connect src dst oi ii g).2.paramConnections = g.paramConnections
          ∧ (connect src dst oi ii g).2.connectionCount = g.connectionCount + 1) := by
  constructor
  · rintro rfl
    rfl
  · rintro d rfl
    refine ⟨fun h1 => ?_, fun h1 h2 => ?_, fun h1 h2 h3 => ?_, fun h1 h2 h3 => ?_⟩
    · simp [connect, h1]
    · have h1' : ¬ src.numberOfOutputs ≤ oi := not_le.mpr h1
      simp [connect, h1', h2]
    · have h1' : ¬ src.numberOfOutputs ≤ oi := not_le.mpr h1
      have h2' : ¬ d.numberOfInputs ≤ ii := not_le.mpr h2
      simp [connect, h1', h2', h3]
    · have h1' : ¬ src.numberOfOutputs ≤ oi := not_le.mpr h1
      have h2' : ¬ d.numberOfInputs ≤ ii := not_le.mpr h2
      simp [connect, h1', h2', h3]

/-- C2 witness: the contract applied at a concrete failing connect (the
different-context case with indices in range) and at a concrete successful
connect. -/
theorem connect_contract_witness :
    connect wSrc (some wDstOther) 0 0 wGraph = (some ExceptionCode.SYNTAX_ERR, wGraph)
    ∧ (connect wSrc (some wDstSame) 0 0 wGraph).1 = none
    ∧ (connect wSrc (some wDstSame) 0 0 wGraph).2.connectionCount
        = wGraph.connectionCount + 1 := by
  have hErr := (((connect_contract wSrc (some wDstOther) 0 0 wGraph).2
      wDstOther rfl).2.2.1) (by decide) (by decide) (by decide)
  have hOk := (((connect_contract wSrc (some wDstSame) 0 0 wGraph).2
      wDstSame rfl).2.2.2) (by decide) (by decide) (by decide)
  exact ⟨hErr, hOk.1, hOk.2.2.2⟩

/-- C6 counterexample: a successful `connect` to an AudioParam registers the
connection but leaves `connectionCount` unchanged — the AudioParam overload
never calls `incrementConnectionCount`, contradicting the claim that it bumps
the count by exactly 1. -/
theorem connectParam_no_count_bump_cex :
    (connectParam wSrc (some wParam) 0 wGraph).1 = none
    ∧ (connectParam wSrc (some wParam) 0 wGraph).2.paramConnections ≠ wGraph.paramConnections
    ∧ (connectParam wSrc (some wParam) 0 wGraph).2.connectionCount = wGraph.connectionCount
    ∧ wGraph.connectionCount + 1 ≠ wGraph.connectionCount := by
  refine ⟨rfl, by decide, rfl, by decide⟩

/-- C6 (amended): `connectParam` sets SYNTAX_ERR for a null param; otherwise
it checks the output index first, setting INDEX_SIZE_ERR when out of range,
and only then sets SYNTAX_ERR for a different-context param; in every error
case the graph is unmodified; on success the connection is registered but
`connectionCount` is not changed. -/
theorem connectParam_contract (src : AudioNodeState) (param : Option AudioParamRef)
    (oi : ℕ) (g : GraphState) :
    (param = none → connectParam src param oi g = (some ExceptionCode.SYNTAX_ERR, g))
    ∧ ∀ p, param = some p →
        (src.numberOfOutputs ≤ oi →
          connectParam src param oi g = (some ExceptionCode.INDEX_SIZE_ERR, g))
        ∧ (oi < src.numberOfOutputs → src.contextId ≠ p.contextId →
          connectParam src param oi g = (some ExceptionCode.SYNTAX_ERR, g))
        ∧ (oi < src.numberOfOutputs → src.contextId = p.contextId →
          (connectParam src param oi g).1 = none
          ∧ (connectParam src param oi g).2.paramConnections
              = ⟨src.nodeId, oi, p.paramId⟩ :: g.paramConnections
          ∧ (connectParam src param oi g).2.connections = g.connections
          ∧ (connectParam src param oi g).2.connectionCount = g.connectionCount) := by
  constructor
  · rintro rfl
    rfl
  · rintro p rfl
    refine ⟨fun h1 => ?_, fun h1 h2 => ?_, fun h1 h2 => ?_⟩
    · simp [connectParam, h1]
    · have h1' : ¬ src.numberOfOutputs ≤ oi := not_le.mpr h1
      simp [connectParam, h1', h2]
    · have h1' : ¬ src.numberOfOutputs ≤ oi := not_le.mpr h1
      simp [connectParam, h1', h2]

/-- C6 witness: the param-connect contract applied at a concrete
null-param call and a concrete successful call. -/
theorem connectParam_contract_witness :
    connectParam wSrc none 0 wGraph = (some ExceptionCode.SYNTAX_ERR, wGraph)
    ∧ (connectParam wSrc (some wParam) 0 wGraph).2.connectionCount
        = wGraph.connectionCount := by
  have hOk := ((connectParam_contract wSrc (some wParam) 0 wGraph).2
      wParam rfl).2.2 (by decide) (by decide)
  exact ⟨(connectParam_contract wSrc none 0 wGraph).1 rfl, hOk.2.2.2⟩

/-- C3 counterexample: a connection deref taking `connectionRefCount` from 2
to 1 on a non-tail-sensitive node with a normal ref remaining does NOT disable
the node's outputs — `finishDeref` only reaches `disableOutputsIfNecessary`
when the connection count hits 0, so the claimed ">1 to ≤1 disables" and the
claimed "disabled iff connection_ref ≤ 1 and not tail-sensitive" both fail
here. -/
theorem finishDeref_no_disable_at_one_cex :
    wGainTwoConn.connectionRefCount = 2
    ∧ wGainTwoConn.normalRefCount = 1
    ∧ wGainTwoConn.nodeType ≠ NodeType.NodeTypeConvolver
    ∧ wGainTwoConn.nodeType ≠ NodeType.NodeTypeDelay
    ∧ (finishDeref false RefType.RefTypeConnection wGainTwoConn).state.connectionRefCount = 1
    ∧ (finishDeref false RefType.RefTypeConnection wGainTwoConn).state.isDisabled = false
    ∧ (finishDeref false RefType.RefTypeConnection wGainTwoConn).state.outputs
        = wGainTwoConn.outputs := by
  refine ⟨by decide, by decide, by decide, by decide, rfl, rfl, rfl⟩

/-- C3 (amended): a connection deref disables the outputs only when it brings
`connectionRefCount` to exactly 0 while normal refs remain (and the node is
not already disabled and not of a tail-sensitive type, convolver or delay); a
deref that leaves a positive connection count changes nothing but the count;
and when both counts reach 0 every output is disconnect-all'd and the node is
marked for deletion exactly once, the marked flag preventing a second
marking. -/
theorem finishDeref_disable_and_mark_contract (sd : Bool) (rt : RefType)
    (s : AudioNodeState) :
    (rt = RefType.RefTypeConnection → s.connectionRefCount = 1 → s.normalRefCount ≠ 0 →
      s.isDisabled = false →
      s.nodeType ≠ NodeType.NodeTypeConvolver → s.nodeType ≠ NodeType.NodeTypeDelay →
      (finishDeref sd rt s).state.isDisabled = true
      ∧ ∀ o ∈ (finishDeref sd rt s).state.outputs, o.enabled = false)
    ∧ (rt = RefType.RefTypeConnection → s.connectionRefCount = 1 → s.normalRefCount ≠ 0 →
      (s.nodeType = NodeType.NodeTypeConvolver ∨ s.nodeType = NodeType.NodeTypeDelay) →
      (finishDeref sd rt s).state.isDisabled = s.isDisabled
      ∧ (finishDeref sd rt s).state.outputs = s.outputs)
    ∧ (rt = RefType.RefTypeConnection → s.connectionRefCount ≠ 1 →
      (finishDeref sd rt s).state
        = { s with connectionRefCount := s.connectionRefCount - 1 }
      ∧ (finishDeref sd rt s).disconnectedAllOutputs = false
      ∧ (finishDeref sd rt s).addedToDeletionList = false)
    ∧ (rt = RefType.RefTypeConnection → s.connectionRefCount = 1 → s.normalRefCount = 0 →
      s.isMarkedForDeletion = false →
      (finishDeref sd rt s).disconnectedAllOutputs = true
      ∧ (finishDeref sd rt s).state.isMarkedForDeletion = true
      ∧ (∀ o ∈ (finishDeref sd rt s).state.outputs, o.connectedInputCount = 0)
      ∧ (finishDeref sd rt s).addedToDeletionList = !sd)
    ∧ (rt = RefType.RefTypeNormal → s.normalRefCount = 1 → s.connectionRefCount = 0 →
      s.isMarkedForDeletion = false →
      (finishDeref sd rt s).disconnectedAllOutputs = true
      ∧ (finishDeref sd rt s).state.isMarkedForDeletion = true
      ∧ (finishDeref sd rt s).addedToDeletionList = !sd)
    ∧ (s.isMarkedForDeletion = true →
      (finishDeref sd rt s).disconnectedAllOutputs = false
      ∧ (finishDeref sd rt s).addedToDeletionList = false) := by
  refine ⟨?_, ?_, ?_, ?_, ?_, ?_⟩
  · rintro rfl h1 h2 h3 h4 h5
    have h1' : s.connectionRefCount - 1 = 0 := by omega
    simp [finishDeref, h1', h2, AudioNodeState.disableOutputsIfNecessary, h3, h4, h5,
      AudioNodeOutput.disable]
  · rintro rfl h1 h2 h4
    have h1' : s.connectionRefCount - 1 = 0 := by omega
    rcases h4 with h4 | h4 <;>
      simp [finishDeref, h1', h2, AudioNodeState.disableOutputsIfNecessary, h4]
  · rintro rfl h1
    have h1' : ¬ s.connectionRefCount - 1 = 0 := by omega
    simp [finishDeref, h1']
  · rintro rfl h1 h2 h3
    have h1' : s.connectionRefCount - 1 = 0 := by omega
    simp [finishDeref, h1', h2, h3, AudioNodeOutput.disconnectAll]
  · rintro rfl h1 h2 h3
    have h1' : s.normalRefCount - 1 = 0 := by omega
    simp [finishDeref, h1', h2, h3]
  · intro h
    cases rt
    · by_cases hc : s.connectionRefCount = 0
      · by_cases hn : s.normalRefCount - 1 = 0 <;> simp [finishDeref, hc, hn, h]
      · simp [finishDeref, hc]
    · by_cases hc : s.connectionRefCount - 1 = 0
      · by_cases hn : s.normalRefCount = 0
        · simp [finishDeref, hc, hn, h]
        · simp [finishDeref, hc, hn, AudioNodeState.disableOutputsIfNecessary]
      · simp [finishDeref, hc]

/-- C3 witness: the contract applied at a concrete gain node whose single
connection ref is dropped while a normal ref remains: the node's outputs are
disabled. -/
theorem finishDeref_disable_and_mark_contract_witness :
    (finishDeref false RefType.RefTypeConnection wGainOneConn).state.isDisabled = true
    ∧ ∀ o ∈ (finishDeref false RefType.RefTypeConnection wGainOneConn).state.outputs,
        o.enabled = false := by
  exact (finishDeref_disable_and_mark_contract false RefType.RefTypeConnection
      wGainOneConn).1 rfl (by decide) (by decide) rfl (by decide) (by decide)

/-- The final clamp in `dopplerRate` keeps every finite shift in
[1/8, 16]. -/
lemma clampShift_bounds (q : ℚ) :
    1/8 ≤ (if q > 16 then 16 else if q < 1/8 then (1/8 : ℚ) else q)
    ∧ (if q > 16 then 16 else if q < 1/8 then (1/8 : ℚ) else q) ≤ 16 := by
  by_cases h1 : q > 16
  · rw [if_pos h1]
    norm_num
  · rw [if_neg h1]
    by_cases h2 : q < 1/8
    · rw [if_pos h2]
      norm_num
    · rw [if_neg h2]
      exact ⟨not_lt.mp h2, not_lt.mp h1⟩

/-- C4 counterexample: with the source at the listener's position and a
nonzero source velocity, `dopplerRate` returns 0.125, not the 1.0 the claim
requires for zero distance — the source has no zero-distance check, the 0/0
projections make the shift NaN, `fixNANs` replaces it by 0.0 (not 1.0), and
the clamp lifts it to 0.125.  The square-root model `id` agrees with the real
square root at the only point used here (0). -/
theorem dopplerRate_zero_distance_cex :
    (wPannerMoving.position.sub wListener.position).isZero = true
    ∧ wPannerMoving.velocity.isZero = false
    ∧ 0 < wListener.dopplerFactor
    ∧ dopplerRate id wPannerMoving wListener = 1/8
    ∧ (1/8 : ℚ) ≠ 1 := by
  refine ⟨by norm_num [wPannerMoving, wListener, FloatPoint3D.sub, FloatPoint3D.isZero],
    by decide, by norm_num [wListener], ?_, by norm_num⟩
  norm_num [dopplerRate, wPannerMoving, wListener, FloatPoint3D.isZero, FloatPoint3D.sub,
    FloatPoint3D.dot, FloatPoint3D.lengthSquared, EDouble.div, EDouble.neg, EDouble.cppMin,
    EDouble.mul, EDouble.sub, fixNANs]

/-- C4 (amended): `dopplerRate` returns 1.0 when `doppler_factor ≤ 0` or when
both velocities are zero; there is no zero-distance guard — a zero
source-listener distance (with some velocity nonzero) makes the shift NaN,
and any NaN/Inf shift is replaced by 0.0 (not 1.0) and then clamped to 0.125;
every returned value lies in [0.125, 16]. -/
theorem dopplerRate_contract (sqrtQ : ℚ → ℚ) (s : PannerState)
    (L : AudioListenerState) :
    (L.dopplerFactor ≤ 0 → dopplerRate sqrtQ s L = 1)
    ∧ (s.velocity.isZero = true → L.velocity.isZero = true → dopplerRate sqrtQ s L = 1)
    ∧ (1/8 ≤ dopplerRate sqrtQ s L ∧ dopplerRate sqrtQ s L ≤ 16)
    ∧ (sqrtQ 0 = 0 → s.position = L.position → 0 < L.dopplerFactor →
        (s.velocity.isZero = false ∨ L.velocity.isZero = false) →
        dopplerRate sqrtQ s L = 1/8) := by
  refine ⟨?_, ?_, ?_, ?_⟩
  · intro h
    have h' : ¬ L.dopplerFactor > 0 := not_lt.mpr h
    simp [dopplerRate, h']
  · intro h1 h2
    by_cases hd : L.dopplerFactor > 0 <;> simp [dopplerRate, hd, h1, h2]
  · by_cases hd : L.dopplerFactor > 0
    · by_cases hv : (!s.velocity.isZero || !L.velocity.isZero) = true
      · simp only [dopplerRate, hd, hv, if_true]
        exact clampShift_bounds _
      · simp [dopplerRate, hd, hv]
        norm_num
    · simp [dopplerRate, hd]
      norm_num
  · intro hsq hpos hd hv
    have hzero : s.position.sub L.position = ⟨0, 0, 0⟩ := by
      rw [hpos]
      simp [FloatPoint3D.sub]
    have hvel : (!s.velocity.isZero || !L.velocity.isZero) = true := by
      rcases hv with h | h <;> simp [h]
    unfold dopplerRate
    rw [if_pos hd]
    simp only [hvel, if_true]
    rw [hzero]
    simp [FloatPoint3D.lengthSquared, FloatPoint3D.dot, hsq, EDouble.div, EDouble.neg,
      EDouble.cppMin, EDouble.mul, EDouble.sub, fixNANs]

/-- C4 witness: the amended contract applied concretely: both velocities zero
gives 1.0, and the zero-distance moving source gives 0.125. -/
theorem dopplerRate_contract_witness :
    dopplerRate id wPannerStill wListener = 1
    ∧ dopplerRate id wPannerMoving wListener = 1/8 := by
  refine ⟨(dopplerRate_contract id wPannerStill wListener).2.1 (by decide) (by decide), ?_⟩
  exact (dopplerRate_contract id wPannerMoving wListener).2.2.2 rfl (by decide)
    (by norm_num [wListener]) (Or.inl (by decide))

/-- C7: `setPanningModel` accepts EQUALPOWER (0) and HRTF (1) and stores the
model; SOUNDFIELD (2) and every other value set NOT_SUPPORTED_ERR and leave
the whole state (panning model included) unchanged; a second call with the
same accepted value is a no-op: the state is identical, so no panner strategy
is reallocated (`pannerAllocCount` unchanged). -/
theorem setPanningModel_contract (model : ℕ) (s : PannerState) :
    (EQUALPOWER = 0 ∧ HRTF = 1 ∧ SOUNDFIELD = 2)
    ∧ ((model = EQUALPOWER ∨ model = HRTF) →
        (setPanningModel model s).1 = none
        ∧ (setPanningModel model s).2.panningModel = model
        ∧ setPanningModel model (setPanningModel model s).2
            = (none, (setPanningModel model s).2))
    ∧ (model ≠ EQUALPOWER → model ≠ HRTF →
        setPanningModel model s = (some ExceptionCode.NOT_SUPPORTED_ERR, s)) := by
  refine ⟨⟨rfl, rfl, rfl⟩, ?_, ?_⟩
  · intro hm
    have hm' : (model = EQUALPOWER || model = HRTF) = true := by
      rcases hm with h | h <;> simp [h]
    by_cases hRe : (s.panner = none ∨ ¬ model = s.panningModel)
    · simp [setPanningModel, hm', hRe]
    · push_neg at hRe
      simp [setPanningModel, hm', hRe.1, hRe.2.symm]
  · intro h1 h2
    simp [setPanningModel, h1, h2]

/-- C7 witness: the contract applied concretely: EQUALPOWER is accepted and a
repeated call is a no-op; SOUNDFIELD (2) and 7 are rejected with the state
unchanged. -/
theorem setPanningModel_contract_witness :
    (setPanningModel 0 wPannerMoving).1 = none
    ∧ setPanningModel 0 (setPanningModel 0 wPannerMoving).2
        = (none, (setPanningModel 0 wPannerMoving).2)
    ∧ setPanningModel 2 wPannerMoving
        = (some ExceptionCode.NOT_SUPPORTED_ERR, wPannerMoving)
    ∧ setPanningModel 7 wPannerMoving
        = (some ExceptionCode.NOT_SUPPORTED_ERR, wPannerMoving) := by
  have hAcc := (setPanningModel_contract 0 wPannerMoving).2.1 (Or.inl rfl)
  exact ⟨hAcc.1, hAcc.2.2,
    (setPanningModel_contract 2 wPannerMoving).2.2 (by decide) (by decide),
    (setPanningModel_contract 7 wPannerMoving).2.2 (by decide) (by decide)⟩

/-- C8: whenever the source position equals the listener position (the
source-listener vector is zero), `getAzimuthElevation` returns azimuth 0 and
elevation 0, for every model of the square root, arc cosine and pi. -/
theorem getAzimuthElevation_degenerate_zero (sqrtQ acosQ : ℚ → ℚ) (piQ : ℚ)
    (s : PannerState) (L : AudioListenerState)
    (h : (s.position.sub L.position).isZero = true) :
    getAzimuthElevation sqrtQ acosQ piQ s L = (0, 0) := by
  unfold getAzimuthElevation
  rw [if_pos h]

/-- C8 witness: the degenerate-direction theorem applied at the concrete
panner sitting at the listener's position. -/
theorem getAzimuthElevation_degenerate_zero_witness :
    getAzimuthElevation id id 3 wPannerMoving wListener = (0, 0) :=
  getAzimuthElevation_degenerate_zero id id 3 wPannerMoving wListener
    (by norm_num [wPannerMoving, wListener, FloatPoint3D.sub, FloatPoint3D.isZero])

end LabSound
